import Mathlib

/-!
Shallow embedding of the image-optimization Lambda handler
(functions/image-processing, exported as `exports.handler`) together with
the request-path and operations-token parsing it performs.

JavaScript values of type string-or-undefined are modelled as
`Option String` (`none` = `undefined`); JavaScript truthiness of such a
value is `truthy`.  `parseInt` is modelled by `parseIntJS`, returning
`none` for `NaN`.  The external collaborators (S3 and the Sharp engine)
are modelled as an abstract `World` of deterministic fallible functions;
the handler records every storage interaction in a `Trace` so that
short-circuit properties are statable.
-/

namespace ImageOpt

/-- Image payloads, abstracted as byte lists. -/
abbrev Bytes := List Nat

/-- Split a character list at every occurrence of `sep`, keeping empty
pieces, as the JavaScript single-character `String.split` does
(`"".split(c)` gives `[""]`). -/
def splitChar (sep : Char) : List Char → List (List Char)
  | [] => [[]]
  | c :: rest =>
    let r := splitChar sep rest
    if c = sep then [] :: r
    else (c :: r.headD []) :: r.tail

/-- JavaScript `String.split` with a one-character separator. -/
def splitStr (sep : Char) (s : String) : List String :=
  (splitChar sep s.data).map (fun cs => String.mk cs)

/-- JavaScript `Array.join('/')`. -/
def joinSlash : List String → String
  | [] => ""
  | [s] => s
  | s :: rest => s ++ "/" ++ joinSlash rest

/-- JavaScript truthiness of a string-or-undefined value:
`undefined` and the empty string are falsy. -/
def truthy : Option String → Bool
  | none => false
  | some s => !s.data.isEmpty

/-- JavaScript `parseInt` (radix 10): skip leading whitespace, optional
sign, then the longest digit prefix; no digits gives `NaN`, modelled as
`none`. -/
def parseIntJS (s : String) : Option Int :=
  let cs := s.data.dropWhile Char.isWhitespace
  let signed : Int × List Char :=
    match cs with
    | c :: rest =>
      if c = '-' then (-1, rest)
      else if c = '+' then (1, rest)
      else (1, cs)
    | [] => (1, cs)
  let ds := signed.2.takeWhile Char.isDigit
  if ds.isEmpty then none
  else some (signed.1 * (ds.foldl (fun n c => 10 * n + ((c.toNat - 48 : Nat) : Int)) 0))

/-- The operations map built by the handler: a JavaScript object read
only through bracket lookups, so modelled as a total function from keys
to string-or-undefined values (`none` covers both an absent property and
a property assigned `undefined`). -/
def OpsMap := String → Option String

/-- The empty operations object `{}`. -/
def emptyOps : OpsMap := fun _ => none

/-- One segment of the token: `operation.split("=")`, keeping the first
two pieces as key and value (`kv[1]` is `undefined` when there is no
`=`). -/
def parseKV (seg : String) : String × Option String :=
  match splitStr '=' seg with
  | [] => ("", none)
  | [k] => (k, none)
  | k :: v :: _ => (k, some v)

/-- One assignment `operations[kv[0]] = kv[1]`. -/
def applySeg (m : OpsMap) (seg : String) : OpsMap :=
  fun k => if k = (parseKV seg).1 then (parseKV seg).2 else m k

/-- The `forEach` loop over the comma-separated segments. -/
def parseOpsList (segs : List String) : OpsMap :=
  segs.foldl applySeg emptyOps

/-- `operationsPrefix.split(',')` followed by the assignment loop. -/
def parseOps (tok : String) : OpsMap :=
  parseOpsList (splitStr ',' tok)

/-- The `resizingOptions` object: a `width` / `height` property is set
only when the raw string is truthy, and holds the `parseInt` of that
string (possibly `NaN`, the inner `none`). -/
structure ResizingOptions where
  width : Option (Option Int)
  height : Option (Option Int)
  deriving DecidableEq, Repr

/-- Lines `if (operations[..]) resizingOptions[..] = parseInt(..)` of the
handler. -/
def resizingOptionsOf (ops : OpsMap) : ResizingOptions where
  width := if truthy (ops "width") then some (parseIntJS ((ops "width").getD "")) else none
  height := if truthy (ops "height") then some (parseIntJS ((ops "height").getD "")) else none

/-- The `switch (operations['format'])` content-type table, including its
`default:` arm. -/
def formatContentType (f : String) : String :=
  match f with
  | "jpeg" => "image/jpeg"
  | "svg" => "image/svg+xml"
  | "gif" => "image/gif"
  | "webp" => "image/webp"
  | "png" => "image/png"
  | "avif" => "image/avif"
  | _ => "image/jpeg"

/-- The `isLossy` flag set by the same `switch`, including its `default:`
arm. -/
def isLossyOf (f : String) : Bool :=
  match f with
  | "jpeg" => true
  | "svg" => false
  | "gif" => false
  | "webp" => true
  | "png" => false
  | "avif" => true
  | _ => true

/-- The options object passed to `toFormat`: present exactly when the
quality string is truthy and the format is lossy, and then holding
`parseInt(operations['quality'])`. -/
def qualityArg (ops : OpsMap) (f : String) : Option (Option Int) :=
  if truthy (ops "quality") && isLossyOf f then
    some (parseIntJS ((ops "quality").getD ""))
  else none

/-- Everything the handler feeds to the Sharp pipeline besides the input
bytes: the resize options (always passed, the object is always truthy in
the source) and, when `operations['format']` is truthy, the raw format
string together with the optional quality argument. -/
structure TransformPlan where
  resize : ResizingOptions
  format : Option (String × Option (Option Int))
  deriving DecidableEq, Repr

/-- The transformation block of the handler, as the plan it hands to the
engine. -/
def planOf (ops : OpsMap) : TransformPlan where
  resize := resizingOptionsOf ops
  format :=
    if truthy (ops "format") then
      some ((ops "format").getD "", qualityArg ops ((ops "format").getD ""))
    else none

/-- The response content-type: overwritten by the `switch` when a format
operation is truthy, otherwise the content-type of the original object
(which S3 may leave `undefined`). -/
def contentTypeAfter (orig : Option String) (ops : OpsMap) : Option String :=
  if truthy (ops "format") then some (formatContentType ((ops "format").getD "")) else orig

/-- The `pop` / `shift` / `join('/')` path dissection of the handler:
split on slash, the popped last element is the operations token, the
shifted-away first element is discarded, the rest rejoined is the
original-image path. -/
def pathParse (path : String) : String × String :=
  let ps := splitStr '/' path
  (ps.getLastD "", joinSlash (ps.dropLast.drop 1))

/-- The environment-derived configuration constants read once at module
load (`process.env.*`; each may be unset). -/
structure Config where
  originalBucket : Option String
  transformedBucket : Option String
  cacheTTL : Option String
  secretKey : Option String
  logTiming : Option String

/-- The method and path of `event.requestContext.http`. -/
structure HttpInfo where
  method : String
  path : String
  deriving DecidableEq, Repr

/-- The parts of the Lambda URL event the handler reads: the
`x-origin-secret-header` header and the request context (collapsed to
`none` when `event.requestContext` or `event.requestContext.http` is
missing, both of which the source treats alike). -/
structure Event where
  secretHeader : Option String
  http : Option HttpInfo
  deriving DecidableEq, Repr

/-- One `S3.putObject` invocation made by the handler. -/
structure PutCall where
  key : String
  body : Bytes
  contentType : Option String
  cacheControl : Option String
  deriving DecidableEq, Repr

/-- The external collaborators, as deterministic fallible functions:
`S3.getObject` on the original bucket, the Sharp pipeline
(`rotate` / `resize` / `toFormat` / `toBuffer`) run on a plan, and
`S3.putObject` on the transformed bucket. -/
structure World where
  fetchOriginal : String → Except String (Bytes × Option String)
  runTransform : Bytes → TransformPlan → Except String Bytes
  storeTransformed : PutCall → Except String Unit

/-- Response bodies: plain text for errors, base64-encoded image bytes
(`isBase64Encoded: true`) for success. -/
inductive RespBody where
  | text (s : String)
  | imageBase64 (bytes : Bytes)
  deriving DecidableEq, Repr

/-- The handler return value; error responses carry no headers. -/
structure Response where
  statusCode : Nat
  body : RespBody
  contentType : Option String := none
  cacheControl : Option String := none
  deriving DecidableEq, Repr

/-- Record of the externally visible actions of one invocation. -/
structure Trace where
  pathParsed : Bool
  fetchCalls : List String
  transformCalls : List TransformPlan
  putCalls : List PutCall
  deriving DecidableEq, Repr

/-- The trace of an invocation that stopped before the path gate. -/
def Trace.empty : Trace :=
  { pathParsed := false, fetchCalls := [], transformCalls := [], putCalls := [] }

/-- The `sendError` helper: logs, then returns the code with a plain
message body. -/
def sendError (code : Nat) (message : String) : Response :=
  { statusCode := code, body := .text message }

/-- Stage after a successful transform: the write-back gate
(`if (S3_TRANSFORMED_IMAGE_BUCKET)`), whose catch turns a `putObject`
failure into a 500, and the final 200 assembly. -/
def afterTransform (cfg : Config) (w : World) (origPath tok : String)
    (ct : Option String) (outBytes : Bytes) (t : Trace) : Response × Trace :=
  if truthy cfg.transformedBucket then
    let pc : PutCall :=
      { key := origPath ++ "/" ++ tok, body := outBytes,
        contentType := ct, cacheControl := cfg.cacheTTL }
    let t1 := { t with putCalls := [pc] }
    match w.storeTransformed pc with
    | .error _ => (sendError 500 "Could not upload transformed image to S3.", t1)
    | .ok _ =>
      ({ statusCode := 200, body := .imageBase64 outBytes,
         contentType := ct, cacheControl := cfg.cacheTTL }, t1)
  else
    ({ statusCode := 200, body := .imageBase64 outBytes,
       contentType := ct, cacheControl := cfg.cacheTTL }, t)

/-- Stage after a successful fetch: operations parsing, the Sharp
pipeline (whose catch maps failure to a 500), then write-back. -/
def afterFetch (cfg : Config) (w : World) (origPath tok : String)
    (orig : Bytes × Option String) (t : Trace) : Response × Trace :=
  let ops := parseOps tok
  let plan := planOf ops
  let ct := contentTypeAfter orig.2 ops
  let t1 := { t with transformCalls := [plan] }
  match w.runTransform orig.1 plan with
  | .error _ => (sendError 500 "error transforming image", t1)
  | .ok outBytes => afterTransform cfg w origPath tok ct outBytes t1

/-- The GET path of the handler: path dissection, original download
(whose catch maps failure to a 500), then the later stages. -/
def handleGet (cfg : Config) (w : World) (http : HttpInfo) : Response × Trace :=
  let pr := pathParse http.path
  let tok := pr.1
  let origPath := pr.2
  let t1 : Trace :=
    { pathParsed := true, fetchCalls := [origPath], transformCalls := [], putCalls := [] }
  match w.fetchOriginal origPath with
  | .error _ => (sendError 500 "Error downloading original image.", t1)
  | .ok orig => afterFetch cfg w origPath tok orig t1

/-- `exports.handler`: the auth gate (header truthy and strictly equal
to the configured secret), the method gate (request context present and
method `GET`), then the GET path. -/
def handler (cfg : Config) (w : World) (ev : Event) : Response × Trace :=
  if truthy ev.secretHeader ∧ ev.secretHeader = cfg.secretKey then
    match ev.http with
    | none => (sendError 400 "Only GET method is supported.", Trace.empty)
    | some http =>
      if http.method = "GET" then handleGet cfg w http
      else (sendError 400 "Only GET method is supported.", Trace.empty)
  else (sendError 403 "Request unauthorized.", Trace.empty)

/-! Sample configurations, collaborators and events used to instantiate
the theorems below on concrete inputs. -/

/-- A configuration with write-through persistence enabled. -/
def cfgStore : Config :=
  { originalBucket := some "orig-bucket", transformedBucket := some "transformed-bucket",
    cacheTTL := some "max-age=31622400", secretKey := some "sek", logTiming := none }

/-- Collaborators for which every external operation succeeds. -/
def wOk : World :=
  { fetchOriginal := fun _ => .ok ([7, 8, 9], some "image/jpeg"),
    runTransform := fun b _ => .ok b,
    storeTransformed := fun _ => .ok () }

/-- Collaborators for which the store-transformed write always fails. -/
def wPutFails : World :=
  { fetchOriginal := fun _ => .ok ([7, 8, 9], some "image/jpeg"),
    runTransform := fun b _ => .ok b,
    storeTransformed := fun _ => .error "putObject failed" }

/-- A well-formed GET request carrying the secret of `cfgStore`. -/
def evGood : Event :=
  { secretHeader := some "sek",
    http := some { method := "GET", path := "/rio/images/1.jpg/original" } }

/-- C1, counterexample.  With persistence configured and every stage up
to the write succeeding, a failing store-transformed write makes the
handler answer 500 with the plain-text upload error message instead of
the computed 200 with the transformed bytes: the catch around
`putObject` ends in `return sendError(500, ...)`. -/
theorem C1_counterexample :
    (handler cfgStore wPutFails evGood).1.statusCode = 500 ∧
    (handler cfgStore wPutFails evGood).1.body =
      RespBody.text "Could not upload transformed image to S3." ∧
    ¬ ((handler cfgStore wPutFails evGood).1.statusCode = 200 ∧
       (handler cfgStore wPutFails evGood).1.body = RespBody.imageBase64 [7, 8, 9]) := by
  refine ⟨by decide, by decide, by decide⟩

/-- C1, amended.  When write-through persistence is configured and the
request reaches the write stage (auth passed, GET, fetch and transform
succeeded), a failure of the store-transformed write changes the result:
the handler responds 500 with the generic message
`Could not upload transformed image to S3.` rather than the 200 with the
transformed bytes; only the generic message, not the underlying error,
is sent to the client. -/
theorem C1_write_failure_yields_500 (cfg : Config) (w : World) (ev : Event)
    (http : HttpInfo) (ob tb : Bytes) (oct : Option String) (e : String)
    (hH : ev.http = some http)
    (hA : truthy ev.secretHeader = true)
    (hS : ev.secretHeader = cfg.secretKey)
    (hM : http.method = "GET")
    (hF : w.fetchOriginal (pathParse http.path).2 = Except.ok (ob, oct))
    (hT : w.runTransform ob (planOf (parseOps (pathParse http.path).1)) = Except.ok tb)
    (hB : truthy cfg.transformedBucket = true)
    (hW : w.storeTransformed
        { key := (pathParse http.path).2 ++ "/" ++ (pathParse http.path).1, body := tb,
          contentType := contentTypeAfter oct (parseOps (pathParse http.path).1),
          cacheControl := cfg.cacheTTL } = Except.error e) :
    (handler cfg w ev).1 = sendError 500 "Could not upload transformed image to S3." := by
  simp only [handler, hH]
  rw [if_pos ⟨hA, hS⟩]
  simp only [hM, eq_self_iff_true, if_true, ite_true]
  simp only [handleGet, afterFetch, afterTransform, hF, hT, hB, if_true, ite_true, hW]

/-- C1, witness for the amended theorem at a concrete input. -/
theorem C1_write_failure_yields_500_witness :
    (handler cfgStore wPutFails evGood).1 =
      sendError 500 "Could not upload transformed image to S3." :=
  C1_write_failure_yields_500 cfgStore wPutFails evGood
    { method := "GET", path := "/rio/images/1.jpg/original" } [7, 8, 9] [7, 8, 9]
    (some "image/jpeg") "putObject failed"
    rfl rfl rfl rfl rfl rfl rfl rfl

/-- C4.  A request whose secret header is absent or differs from the
configured shared secret is answered 403 and the storage gateway is
never invoked: the fetch-original operation is called zero times. -/
theorem C4_auth_short_circuit (cfg : Config) (w : World) (ev : Event)
    (h : ev.secretHeader = none ∨ ev.secretHeader ≠ cfg.secretKey) :
    (handler cfg w ev).1.statusCode = 403 ∧ (handler cfg w ev).2.fetchCalls = [] := by
  have hneg : ¬ (truthy ev.secretHeader = true ∧ ev.secretHeader = cfg.secretKey) := by
    rcases h with h | h
    · intro hc
      rw [h] at hc
      exact absurd hc.1 (by decide)
    · intro hc
      exact h hc.2
  simp only [handler, if_neg hneg]
  exact ⟨rfl, rfl⟩

/-- A GET request carrying a header different from the secret of
`cfgStore`. -/
def evBadSecret : Event :=
  { secretHeader := some "wrong",
    http := some { method := "GET", path := "/rio/images/1.jpg/original" } }

/-- C4, witness at a concrete mismatching header. -/
theorem C4_auth_short_circuit_witness :
    (handler cfgStore wOk evBadSecret).1.statusCode = 403 ∧
    (handler cfgStore wOk evBadSecret).2.fetchCalls = [] :=
  C4_auth_short_circuit cfgStore wOk evBadSecret (Or.inr (by decide))

/-- C10.  A request whose secret header is present but empty is answered
403 with no storage access, for every configuration, including one whose
configured secret is itself the empty string or unset: the truthiness
check `!event.headers[..]` rejects the empty string before the equality
comparison is reached. -/
theorem C10_empty_header_rejected (cfg : Config) (w : World) (ev : Event)
    (h : ev.secretHeader = some "") :
    (handler cfg w ev).1.statusCode = 403 ∧ (handler cfg w ev).2.fetchCalls = [] := by
  have hneg : ¬ (truthy ev.secretHeader = true ∧ ev.secretHeader = cfg.secretKey) := by
    intro hc
    rw [h] at hc
    exact absurd hc.1 (by decide)
  simp only [handler, if_neg hneg]
  exact ⟨rfl, rfl⟩

/-- A configuration whose configured secret is itself empty. -/
def cfgEmptySecret : Config :=
  { originalBucket := some "orig-bucket", transformedBucket := none,
    cacheTTL := some "max-age=31622400", secretKey := some "", logTiming := none }

/-- A GET request whose secret header is the empty string. -/
def evEmptyHeader : Event :=
  { secretHeader := some "",
    http := some { method := "GET", path := "/rio/images/1.jpg/original" } }

/-- C10, witness: empty header against an empty configured secret is
still rejected with 403 and no fetch. -/
theorem C10_empty_header_rejected_witness :
    (handler cfgEmptySecret wOk evEmptyHeader).1.statusCode = 403 ∧
    (handler cfgEmptySecret wOk evEmptyHeader).2.fetchCalls = [] :=
  C10_empty_header_rejected cfgEmptySecret wOk evEmptyHeader rfl

/-- C8.  An authenticated request whose method is not GET is answered
400 and the path gate is never executed: the path is not split, and no
fetch, transform or store call is made. -/
theorem C8_method_short_circuit (cfg : Config) (w : World) (ev : Event) (http : HttpInfo)
    (hA : truthy ev.secretHeader = true) (hS : ev.secretHeader = cfg.secretKey)
    (hH : ev.http = some http) (hM : http.method ≠ "GET") :
    (handler cfg w ev).1 = sendError 400 "Only GET method is supported." ∧
    (handler cfg w ev).2.pathParsed = false ∧
    (handler cfg w ev).2.fetchCalls = [] ∧
    (handler cfg w ev).2.transformCalls = [] ∧
    (handler cfg w ev).2.putCalls = [] := by
  simp only [handler, hH]
  rw [if_pos ⟨hA, hS⟩, if_neg hM]
  exact ⟨rfl, rfl, rfl, rfl, rfl⟩

/-- An authenticated POST request. -/
def evPost : Event :=
  { secretHeader := some "sek",
    http := some { method := "POST", path := "/rio/images/1.jpg/original" } }

/-- C8, witness at a concrete POST request. -/
theorem C8_method_short_circuit_witness :
    (handler cfgStore wOk evPost).1 = sendError 400 "Only GET method is supported." ∧
    (handler cfgStore wOk evPost).2.pathParsed = false ∧
    (handler cfgStore wOk evPost).2.fetchCalls = [] ∧
    (handler cfgStore wOk evPost).2.transformCalls = [] ∧
    (handler cfgStore wOk evPost).2.putCalls = [] :=
  C8_method_short_circuit cfgStore wOk evPost
    { method := "POST", path := "/rio/images/1.jpg/original" } rfl rfl rfl (by decide)

/-- C3, counterexample.  A recognized key with a wrong-typed value is
not silently dropped: for the token `width=abc` the width property of
the resize options is present and holds `parseInt("abc") = NaN`
(modelled `some none`), so the engine input differs from the one for a
token without the key — the transform does not proceed as if the key
were absent. -/
theorem C3_counterexample :
    (resizingOptionsOf (parseOps "width=abc")).width = some none ∧
    resizingOptionsOf (parseOps "width=abc") ≠ resizingOptionsOf emptyOps ∧
    planOf (parseOps "width=abc") ≠ planOf emptyOps := by
  refine ⟨by decide, by decide, by decide⟩

/-- C3, amended.  Only a recognized key whose raw value is the empty
string is dropped (the truthiness guard); any non-empty value — numeric
or not — is kept: the resize options carry `parseInt` of it, which is
`NaN` for a non-numeric string, forwarded to the engine rather than
treated as absent. -/
theorem C3_wrong_type_not_dropped (ops : OpsMap) (s : String) (h : ops "width" = some s) :
    (s = "" → (resizingOptionsOf ops).width = none) ∧
    (s ≠ "" → (resizingOptionsOf ops).width = some (parseIntJS s)) := by
  constructor
  · intro hs
    subst hs
    simp [resizingOptionsOf, truthy, h]
  · intro hs
    have hd : s.data.isEmpty = false := by
      cases hdd : s.data.isEmpty
      · rfl
      · exact absurd (String.ext (by simpa using hdd)) hs
    simp [resizingOptionsOf, truthy, h, hd]

/-- C3, witness for the amended theorem: a non-numeric width is kept as
`NaN` in the resize options. -/
theorem C3_wrong_type_not_dropped_witness :
    (resizingOptionsOf (parseOps "width=abc")).width = some (parseIntJS "abc") :=
  (C3_wrong_type_not_dropped (parseOps "width=abc") "abc" (by decide)).2 (by decide)

/-- C5.  The quality value reaches the encoder only for lossy targets:
two operations maps that agree on `width` and `height`, both select
format `png`, and differ only in that one carries `quality=50`, produce
the same engine plan, hence byte-identical transform output for every
engine; and for every lossless format (png, gif, svg) the plan carries
no quality argument at all. -/
theorem C5_quality_ignored_for_png (ops1 ops2 : OpsMap)
    (hf1 : ops1 "format" = some "png") (hf2 : ops2 "format" = some "png")
    (hq1 : ops1 "quality" = none) (hq2 : ops2 "quality" = some "50")
    (hw : ops2 "width" = ops1 "width") (hh : ops2 "height" = ops1 "height") :
    planOf ops2 = planOf ops1 ∧
    (∀ (w : World) (b : Bytes), w.runTransform b (planOf ops2) = w.runTransform b (planOf ops1)) ∧
    (∀ (ops : OpsMap) (f : String), f ∈ (["png", "gif", "svg"] : List String) →
      ops "format" = some f → (planOf ops).format = some (f, none)) := by
  have hplan : planOf ops2 = planOf ops1 := by
    simp [planOf, resizingOptionsOf, qualityArg, truthy, hf1, hf2, hq1, hq2, hw, hh, isLossyOf]
  refine ⟨hplan, fun w b => by rw [hplan], ?_⟩
  intro ops f hmem hof
  simp only [List.mem_cons, List.not_mem_nil, or_false] at hmem
  rcases hmem with h | h | h <;> subst h <;>
    simp [planOf, qualityArg, truthy, isLossyOf, hof]

/-- C5, witness: the tokens `format=png,quality=50` and `format=png`
yield identical engine plans. -/
theorem C5_quality_ignored_for_png_witness :
    planOf (parseOps "format=png,quality=50") = planOf (parseOps "format=png") :=
  (C5_quality_ignored_for_png (parseOps "format=png") (parseOps "format=png,quality=50")
    (by decide) (by decide) (by decide) (by decide) (by decide) (by decide)).1

/-- C6.  Parser semantics: the token is split on comma and each segment
on equals into a key/value assignment; the value recorded for a key is
the one of its last occurrence; the engine plan depends only on the four
recognized keys, so unknown keys are left unused without any error; and
the literal token `original` yields an empty transform specification —
no resize, no reformat, content-type passed through. -/
theorem C6_parser_semantics :
    (∀ tok : String, parseOps tok = parseOpsList (splitStr ',' tok)) ∧
    (∀ (segs : List String) (seg k : String),
      parseOpsList (segs ++ [seg]) k =
        if k = (parseKV seg).1 then (parseKV seg).2 else parseOpsList segs k) ∧
    (∀ ops1 ops2 : OpsMap, ops1 "format" = ops2 "format" → ops1 "width" = ops2 "width" →
      ops1 "height" = ops2 "height" → ops1 "quality" = ops2 "quality" →
      planOf ops1 = planOf ops2 ∧
      ∀ ct, contentTypeAfter ct ops1 = contentTypeAfter ct ops2) ∧
    (planOf (parseOps "original") =
      { resize := { width := none, height := none }, format := none }) ∧
    (∀ ct, contentTypeAfter ct (parseOps "original") = ct) := by
  refine ⟨fun tok => rfl, ?_, ?_, by decide, ?_⟩
  · intro segs seg k
    show (List.foldl applySeg emptyOps (segs ++ [seg])) k = _
    rw [List.foldl_append]
    rfl
  · intro ops1 ops2 hf hw hh hq
    constructor
    · simp [planOf, resizingOptionsOf, qualityArg, hf, hw, hh, hq]
    · intro ct
      simp [contentTypeAfter, hf]
  · intro ct
    have h : truthy (parseOps "original" "format") = false := by decide
    simp [contentTypeAfter, h]

/-- C6, witness: duplicate keys resolve to the last occurrence and the
unknown key `foo` is unused, so `width=1,foo=bar,width=2` plans exactly
as `width=2`. -/
theorem C6_parser_semantics_witness :
    planOf (parseOps "width=1,foo=bar,width=2") = planOf (parseOps "width=2") :=
  (C6_parser_semantics.2.2.1 (parseOps "width=1,foo=bar,width=2") (parseOps "width=2")
    (by decide) (by decide) (by decide) (by decide)).1

/-- Dropping the first element and dropping the last element of a list
commute. -/
theorem dropLast_drop_one (l : List α) : l.dropLast.drop 1 = (l.drop 1).dropLast := by
  cases l with
  | nil => rfl
  | cons a t =>
    cases t with
    | nil => rfl
    | cons b u => rfl

/-- The description of the path gate in the specification: split the
request path on slash; the last segment is the operations token; the
first segment (the routing prefix) is discarded; the remaining segments
(those other than the first and the last) are rejoined with slash. -/
def pathParseDescribed (path : String) : String × String :=
  let ps := splitStr '/' path
  (ps.getLastD "", joinSlash ((ps.drop 1).dropLast))

/-- In every branch of the GET path, exactly one fetch is issued, keyed
by the original-image path of the dissection. -/
theorem handleGet_fetchCalls (cfg : Config) (w : World) (http : HttpInfo) :
    (handleGet cfg w http).2.fetchCalls = [(pathParse http.path).2] := by
  simp only [handleGet]
  split
  · rfl
  · simp only [afterFetch]
    split
    · rfl
    · simp only [afterTransform]
      split
      · split <;> rfl
      · rfl

/-- C7.  For an authenticated GET request the handler derives its fetch
key exactly as the specification describes: the `pop` / `shift` / `join`
dissection of the source coincides with taking the last slash-separated
segment as operations token, discarding the first segment, and rejoining
the remaining segments, and the single fetch issued uses the rejoined
original path as key. -/
theorem C7_fetch_key_derivation (cfg : Config) (w : World) (ev : Event) (http : HttpInfo)
    (hA : truthy ev.secretHeader = true) (hS : ev.secretHeader = cfg.secretKey)
    (hH : ev.http = some http) (hM : http.method = "GET") :
    (∀ p : String, pathParse p = pathParseDescribed p) ∧
    (handler cfg w ev).2.fetchCalls = [(pathParseDescribed http.path).2] := by
  have hpp : ∀ p : String, pathParse p = pathParseDescribed p := by
    intro p
    simp only [pathParse, pathParseDescribed, dropLast_drop_one]
  refine ⟨hpp, ?_⟩
  simp only [handler, hH]
  rw [if_pos ⟨hA, hS⟩]
  simp only [hM, eq_self_iff_true, ite_true, if_true]
  rw [handleGet_fetchCalls, hpp]

/-- C7, witness: the good request fetches exactly the rejoined middle
segments of its path. -/
theorem C7_fetch_key_derivation_witness :
    (∀ p : String, pathParse p = pathParseDescribed p) ∧
    (handler cfgStore wOk evGood).2.fetchCalls =
      [(pathParseDescribed "/rio/images/1.jpg/original").2] :=
  C7_fetch_key_derivation cfgStore wOk evGood
    { method := "GET", path := "/rio/images/1.jpg/original" } rfl rfl rfl rfl

/-- A present, non-empty string value is truthy. -/
theorem truthy_some_ne_empty (s : String) (hs : s ≠ "") : truthy (some s) = true := by
  have hd : s.data.isEmpty = false := by
    cases hdd : s.data.isEmpty
    · rfl
    · exact absurd (String.ext (by simpa using hdd)) hs
  simp [truthy, hd]

/-- The `default:` arm of the content-type switch. -/
theorem formatContentType_unrecognized (f : String)
    (h : f ∉ (["jpeg", "svg", "gif", "webp", "png", "avif"] : List String)) :
    formatContentType f = "image/jpeg" := by
  simp only [List.mem_cons, List.not_mem_nil, or_false] at h
  push_neg at h
  unfold formatContentType
  split <;> simp_all

/-- The `default:` arm of the `isLossy` switch. -/
theorem isLossyOf_unrecognized (f : String)
    (h : f ∉ (["jpeg", "svg", "gif", "webp", "png", "avif"] : List String)) :
    isLossyOf f = true := by
  simp only [List.mem_cons, List.not_mem_nil, or_false] at h
  push_neg at h
  unfold isLossyOf
  split <;> simp_all

/-- An authenticated GET request whose token carries the unrecognized
format `bmp` together with a quality value. -/
def evBmp : Event :=
  { secretHeader := some "sek",
    http := some { method := "GET", path := "/rio/images/1.jpg/format=bmp,quality=20" } }

/-- An authenticated GET request whose token carries a present but empty
format value. -/
def evFormatEmpty : Event :=
  { secretHeader := some "sek",
    http := some { method := "GET", path := "/rio/images/1.jpg/format=" } }

/-- Collaborators whose original image is a PNG and for which every
external operation succeeds. -/
def wPng : World :=
  { fetchOriginal := fun _ => .ok ([7, 8, 9], some "image/png"),
    runTransform := fun b _ => .ok b,
    storeTransformed := fun _ => .ok () }

/-- Collaborators whose engine, like the real encoder behind `toFormat`,
accepts only the canonical format identifiers and rejects any other
format string in the plan. -/
def wSharpReject : World :=
  { fetchOriginal := fun _ => .ok ([7, 8, 9], some "image/jpeg"),
    runTransform := fun b p =>
      match p.format with
      | none => .ok b
      | some (f, _) =>
        if f ∈ (["jpeg", "svg", "gif", "webp", "png", "avif"] : List String) then .ok b
        else .error "unsupported output format",
    storeTransformed := fun _ => .ok () }

/-- C2, counterexample.  The claim fails in two ways.  A present but
empty `format` value (token `format=`) is outside the recognized set,
yet the format block is skipped by the truthiness guard: the response is
200 with the content-type of the original (`image/png`), not
`image/jpeg`.  And for a non-empty unrecognized value (`format=bmp`) the
plan hands the raw string `bmp` — not `jpeg` — to the encoder, so with
an engine that accepts only the canonical identifiers the request fails
500 on account of the unrecognized format value. -/
theorem C2_counterexample :
    parseOps "format=" "format" = some "" ∧
    "" ∉ (["jpeg", "svg", "gif", "webp", "png", "avif"] : List String) ∧
    (handler cfgStore wPng evFormatEmpty).1.statusCode = 200 ∧
    (handler cfgStore wPng evFormatEmpty).1.contentType = some "image/png" ∧
    (handler cfgStore wPng evFormatEmpty).1.contentType ≠ some "image/jpeg" ∧
    (planOf (parseOps "format=bmp,quality=20")).format = some ("bmp", some (parseIntJS "20")) ∧
    (planOf (parseOps "format=bmp,quality=20")).format ≠
      (planOf (parseOps "format=jpeg,quality=20")).format ∧
    (handler cfgStore wSharpReject evBmp).1.statusCode = 500 := by
  refine ⟨by decide, by decide, by decide, by decide, by decide, by decide, by decide, by decide⟩

/-- C2, amended.  A present, non-empty `format` value outside {jpeg,
png, gif, webp, avif, svg} falls into the `default:` arm: the response
content-type is set to `image/jpeg`, the format is marked lossy so a
present quality value is passed to the encoder — but the raw
unrecognized string, not `jpeg`, is what the plan hands to the encoder,
so when the engine rejects it the request fails 500 with
`error transforming image`.  A present but empty `format` value is not
defaulted at all: the truthiness guard skips the format block and the
content-type stays that of the original. -/
theorem C2_default_arm_raw_format (ops : OpsMap) (f : String) (oct : Option String)
    (hf : ops "format" = some f)
    (hnr : f ∉ (["jpeg", "svg", "gif", "webp", "png", "avif"] : List String)) :
    (f = "" → (planOf ops).format = none ∧ contentTypeAfter oct ops = oct) ∧
    (f ≠ "" →
      contentTypeAfter oct ops = some "image/jpeg" ∧
      isLossyOf f = true ∧
      (planOf ops).format = some (f, qualityArg ops f) ∧
      (truthy (ops "quality") = true →
        qualityArg ops f = some (parseIntJS ((ops "quality").getD ""))) ∧
      (∀ (cfg : Config) (w : World) (ev : Event) (http : HttpInfo) (ob : Bytes) (e : String),
        ev.http = some http → truthy ev.secretHeader = true →
        ev.secretHeader = cfg.secretKey → http.method = "GET" →
        parseOps (pathParse http.path).1 = ops →
        w.fetchOriginal (pathParse http.path).2 = Except.ok (ob, oct) →
        w.runTransform ob (planOf ops) = Except.error e →
        (handler cfg w ev).1 = sendError 500 "error transforming image")) := by
  constructor
  · intro hfe
    subst hfe
    refine ⟨?_, ?_⟩
    · simp [planOf, hf, truthy]
    · simp [contentTypeAfter, hf, truthy]
  · intro hfne
    have htr : truthy (some f) = true := truthy_some_ne_empty f hfne
    refine ⟨?_, isLossyOf_unrecognized f hnr, ?_, ?_, ?_⟩
    · simp [contentTypeAfter, hf, htr, formatContentType_unrecognized f hnr]
    · simp [planOf, hf, htr]
    · intro hq
      simp [qualityArg, hq, isLossyOf_unrecognized f hnr]
    · intro cfg w ev http ob e hH hA hS hM hops hF hT
      subst hops
      simp only [handler, hH]
      rw [if_pos ⟨hA, hS⟩]
      simp only [hM, eq_self_iff_true, ite_true, if_true]
      simp only [handleGet, afterFetch, hF, hT]

/-- C2, witness for the amended theorem at the concrete token
`format=bmp,quality=20`: the content-type defaults to `image/jpeg`,
while handing the raw `bmp` to a canonical-identifiers-only engine makes
the request fail 500. -/
theorem C2_default_arm_raw_format_witness :
    contentTypeAfter (some "image/jpeg")
      (parseOps (pathParse "/rio/images/1.jpg/format=bmp,quality=20").1) = some "image/jpeg" ∧
    (handler cfgStore wSharpReject evBmp).1 = sendError 500 "error transforming image" := by
  have h := C2_default_arm_raw_format
    (parseOps (pathParse "/rio/images/1.jpg/format=bmp,quality=20").1) "bmp" (some "image/jpeg")
    (by decide) (by decide)
  have h2 := h.2 (by decide)
  exact ⟨h2.1, h2.2.2.2.2 cfgStore wSharpReject evBmp
    { method := "GET", path := "/rio/images/1.jpg/format=bmp,quality=20" }
    [7, 8, 9] "unsupported output format" rfl rfl rfl rfl rfl rfl rfl⟩

/-- C9.  Every transformed image the handler persists is stored under
the key `originalPath ++ "/" ++ operationsToken` of the request, with
the configured cache-control value, and — when the write succeeds — the
request ends 200 carrying exactly the stored content-type and the stored
bytes as body. -/
theorem C9_store_key_and_content_type (cfg : Config) (w : World) (ev : Event) (pc : PutCall)
    (hmem : pc ∈ (handler cfg w ev).2.putCalls)
    (hok : w.storeTransformed pc = Except.ok ()) :
    ∃ http, ev.http = some http ∧
      pc.key = (pathParse http.path).2 ++ "/" ++ (pathParse http.path).1 ∧
      pc.cacheControl = cfg.cacheTTL ∧
      (handler cfg w ev).1.statusCode = 200 ∧
      (handler cfg w ev).1.contentType = pc.contentType ∧
      (handler cfg w ev).1.body = RespBody.imageBase64 pc.body := by
  by_cases hC : truthy ev.secretHeader = true ∧ ev.secretHeader = cfg.secretKey
  · cases hE : ev.http with
    | none =>
      rw [show handler cfg w ev = (sendError 400 "Only GET method is supported.", Trace.empty) by
        simp only [handler, hE]; rw [if_pos hC]] at hmem
      simp [Trace.empty] at hmem
    | some http =>
      by_cases hM : http.method = "GET"
      · have hh : handler cfg w ev = handleGet cfg w http := by
          simp only [handler, hE]
          rw [if_pos hC, if_pos hM]
        rw [hh] at hmem ⊢
        refine ⟨http, rfl, ?_⟩
        simp only [handleGet] at hmem ⊢
        cases hF : w.fetchOriginal (pathParse http.path).2 with
        | error e =>
          simp only [hF] at hmem
          simp at hmem
        | ok orig =>
          simp only [hF] at hmem ⊢
          simp only [afterFetch] at hmem ⊢
          cases hT : w.runTransform orig.1 (planOf (parseOps (pathParse http.path).1)) with
          | error e =>
            simp only [hT] at hmem
            simp at hmem
          | ok outBytes =>
            simp only [hT] at hmem ⊢
            simp only [afterTransform] at hmem ⊢
            cases hB : truthy cfg.transformedBucket with
            | false =>
              simp only [hB] at hmem
              simp at hmem
            | true =>
              simp only [hB, if_true, ite_true] at hmem ⊢
              split at hmem
              · next val heq =>
                simp only [List.mem_singleton] at hmem
                subst hmem
                rw [hok] at heq
                exact absurd heq (by simp)
              · next val heq =>
                simp only [List.mem_singleton] at hmem
                subst hmem
                simp
      · rw [show handler cfg w ev = (sendError 400 "Only GET method is supported.", Trace.empty) by
          simp only [handler, hE]; rw [if_pos hC, if_neg hM]] at hmem
        simp [Trace.empty] at hmem
  · rw [show handler cfg w ev = (sendError 403 "Request unauthorized.", Trace.empty) by
      simp only [handler]; rw [if_neg hC]] at hmem
    simp [Trace.empty] at hmem

/-- C9, witness: the good request against all-succeeding collaborators
stores exactly one object, keyed `rio/images/1.jpg/original`, whose
content-type and bytes match the 200 response. -/
theorem C9_store_key_and_content_type_witness :
    ∃ http, evGood.http = some http ∧
      ({ key := "rio/images/1.jpg/original", body := [7, 8, 9],
         contentType := some "image/jpeg",
         cacheControl := some "max-age=31622400" } : PutCall).key =
        (pathParse http.path).2 ++ "/" ++ (pathParse http.path).1 ∧
      ({ key := "rio/images/1.jpg/original", body := [7, 8, 9],
         contentType := some "image/jpeg",
         cacheControl := some "max-age=31622400" } : PutCall).cacheControl = cfgStore.cacheTTL ∧
      (handler cfgStore wOk evGood).1.statusCode = 200 ∧
      (handler cfgStore wOk evGood).1.contentType =
        ({ key := "rio/images/1.jpg/original", body := [7, 8, 9],
           contentType := some "image/jpeg",
           cacheControl := some "max-age=31622400" } : PutCall).contentType ∧
      (handler cfgStore wOk evGood).1.body =
        RespBody.imageBase64
          ({ key := "rio/images/1.jpg/original", body := [7, 8, 9],
             contentType := some "image/jpeg",
             cacheControl := some "max-age=31622400" } : PutCall).body :=
  C9_store_key_and_content_type cfgStore wOk evGood
    { key := "rio/images/1.jpg/original", body := [7, 8, 9],
      contentType := some "image/jpeg", cacheControl := some "max-age=31622400" }
    (by decide) rfl

end ImageOpt
